import Mathlib

/-!
Verification of the BlueZ `Adapter` translation layer (`src/bluez/adapter.rs`):
a shallow embedding of the adapter's `Central` operations and of the
`central_event` raw-to-domain event translator, together with proofs of the
specified properties.

The session capability (`BluetoothSession`) is modelled as a pure oracle: one
`Except` result per operation, and a function from internal device ids to
device-info results.  The asynchronous stream of raw events is modelled by its
finite prefixes (`List BluetoothEvent`).  Operations are additionally
instrumented with the list of session calls they perform and the log lines
they emit, so that frame effects (which session calls happen) are provable.
-/

namespace BtleplugBluez

/-- Internal session-local device identifier (`DeviceId` in bluez-async). -/
abbrev DeviceId := Nat

/-- Identifier of a local adapter (`AdapterId` wraps a D-Bus object path). -/
abbrev AdapterId := String

/-- The transport's native hardware-address representation (`MacAddress`). -/
structure MacAddress where
  bytes : List Nat
  deriving DecidableEq

/-- The domain address type (`BDAddr`), equal iff the raw bytes are equal. -/
structure BDAddr where
  bytes : List Nat
  deriving DecidableEq

/-- Modelled from the spec: the conversion `BDAddr::from(&MacAddress)` lives in
the crate's `api` module, outside the translated file.  Per the spec, the
Address value type wraps the fixed-size hardware address and is constructible
from the transport's native address struct, with equality by raw bytes. -/
def BDAddr.fromMac (m : MacAddress) : BDAddr := ⟨m.bytes⟩

/-- Snapshot of one device as returned by the session (`DeviceInfo`). -/
structure DeviceInfo where
  id : DeviceId
  mac_address : MacAddress
  deriving DecidableEq

/-- Transport-layer error (`BluetoothError`); only its rendered message is
observable across the boundary. -/
structure BluetoothError where
  message : String
  deriving DecidableEq

/-- The `error.to_string()` rendering used by the error adapter. -/
def BluetoothError.toString (e : BluetoothError) : String := e.message

/-- Device-scoped raw notifications (`DeviceEvent`).  `OtherDeviceEvent`
stands for the device-event variants the translator does not recognize. -/
inductive DeviceEvent where
  | Discovered : DeviceEvent
  | Connected (connected : Bool) : DeviceEvent
  | RSSI (rssi : Int) : DeviceEvent
  | ManufacturerData (manufacturer_data : List (Nat × List Nat)) : DeviceEvent
  | OtherDeviceEvent : DeviceEvent
  deriving DecidableEq

/-- Raw low-level notifications (`BluetoothEvent`).  `AdapterEvent` stands for
the adapter-scoped variants, all dropped by the translator. -/
inductive BluetoothEvent where
  | Device (id : DeviceId) (event : DeviceEvent) : BluetoothEvent
  | AdapterEvent : BluetoothEvent
  deriving DecidableEq

/-- Unified domain events (`CentralEvent`). -/
inductive CentralEvent where
  | DeviceDiscovered (addr : BDAddr) : CentralEvent
  | DeviceConnected (addr : BDAddr) : CentralEvent
  | DeviceDisconnected (addr : BDAddr) : CentralEvent
  | DeviceUpdated (addr : BDAddr) : CentralEvent
  | ManufacturerDataAdvertisement (address : BDAddr) (manufacturer_id : Nat)
      (data : List Nat) : CentralEvent
  deriving DecidableEq

/-- Domain errors (`Error`); the two variants this layer produces. -/
inductive Error where
  | DeviceNotFound : Error
  | Other (msg : String) : Error
  deriving DecidableEq

/-- One observable call against the session capability. -/
inductive SessionCall where
  | getDevices : SessionCall
  | getDeviceInfo (id : DeviceId) : SessionCall
  | startDiscovery : SessionCall
  | stopDiscovery : SessionCall
  | eventStream : SessionCall
  deriving DecidableEq

/-- The session capability (`BluetoothSession`), modelled as a pure oracle:
the result each operation would return.  The raw event stream is modelled by
the finite prefix of raw events under consideration. -/
structure BluetoothSession where
  devicesResult : Except BluetoothError (List DeviceInfo)
  deviceInfoResult : DeviceId → Except BluetoothError DeviceInfo
  startDiscoveryResult : Except BluetoothError Unit
  stopDiscoveryResult : Except BluetoothError Unit
  eventStreamResult : Except BluetoothError (List BluetoothEvent)

/-- `session.get_devices()`. -/
def BluetoothSession.get_devices (s : BluetoothSession) :
    Except BluetoothError (List DeviceInfo) := s.devicesResult

/-- `session.get_device_info(&id)`. -/
def BluetoothSession.get_device_info (s : BluetoothSession) (i : DeviceId) :
    Except BluetoothError DeviceInfo := s.deviceInfoResult i

/-- `session.start_discovery()`. -/
def BluetoothSession.start_discovery (s : BluetoothSession) :
    Except BluetoothError Unit := s.startDiscoveryResult

/-- `session.stop_discovery()`. -/
def BluetoothSession.stop_discovery (s : BluetoothSession) :
    Except BluetoothError Unit := s.stopDiscoveryResult

/-- `session.event_stream()`. -/
def BluetoothSession.event_stream (s : BluetoothSession) :
    Except BluetoothError (List BluetoothEvent) := s.eventStreamResult

/-- The error adapter `impl From<BluetoothError> for Error`:
`Error::Other(error.to_string())`. -/
def Error.fromBluetooth (e : BluetoothError) : Error := Error.Other e.toString

/-- The `?` operator applied to a session result: `Ok` passes through, `Err`
is converted through `From<BluetoothError> for Error`. -/
def liftSession {α : Type} : Except BluetoothError α → Except Error α
  | Except.ok a => Except.ok a
  | Except.error e => Except.error (Error.fromBluetooth e)

/-- A peripheral value: the shared session handle plus one device snapshot. -/
structure Peripheral where
  session : BluetoothSession
  device : DeviceInfo

/-- `Peripheral::new(session, device)`. -/
def Peripheral.new (session : BluetoothSession) (device : DeviceInfo) :
    Peripheral := ⟨session, device⟩

/-- The adapter: a shared session handle plus the adapter identifier. -/
structure Adapter where
  session : BluetoothSession
  adapter : AdapterId

/-- Rust's `Iterator::find_map`: first `some` result of `f` in scan order. -/
def find_map {α β : Type} (f : α → Option β) : List α → Option β
  | [] => none
  | x :: xs =>
    match f x with
    | some b => some b
    | none => find_map f xs

/-- The event translator `central_event`, instrumented: besides the optional
domain event it records the session calls made and the warning lines logged.
Mirrors `central_event(event, session)` in `src/bluez/adapter.rs` arm by
arm; `.await.ok()?` on the lookup becomes the match on
`session.get_device_info`. -/
def central_eventT (event : BluetoothEvent) (session : BluetoothSession) :
    Option CentralEvent × List SessionCall × List String :=
  match event with
  | BluetoothEvent.Device i DeviceEvent.Discovered =>
    match session.get_device_info i with
    | Except.error _ => (none, [SessionCall.getDeviceInfo i], [])
    | Except.ok device =>
      (some (CentralEvent.DeviceDiscovered (BDAddr.fromMac device.mac_address)),
       [SessionCall.getDeviceInfo i], [])
  | BluetoothEvent.Device i (DeviceEvent.Connected connected) =>
    match session.get_device_info i with
    | Except.error _ => (none, [SessionCall.getDeviceInfo i], [])
    | Except.ok device =>
      if connected then
        (some (CentralEvent.DeviceConnected (BDAddr.fromMac device.mac_address)),
         [SessionCall.getDeviceInfo i], [])
      else
        (some (CentralEvent.DeviceDisconnected (BDAddr.fromMac device.mac_address)),
         [SessionCall.getDeviceInfo i], [])
  | BluetoothEvent.Device i (DeviceEvent.RSSI _) =>
    match session.get_device_info i with
    | Except.error _ => (none, [SessionCall.getDeviceInfo i], [])
    | Except.ok device =>
      (some (CentralEvent.DeviceUpdated (BDAddr.fromMac device.mac_address)),
       [SessionCall.getDeviceInfo i], [])
  | BluetoothEvent.Device i (DeviceEvent.ManufacturerData manufacturer_data) =>
    match session.get_device_info i with
    | Except.error _ => (none, [SessionCall.getDeviceInfo i], [])
    | Except.ok device =>
      let logs : List String :=
        if manufacturer_data.length > 1 then
          ["Got more than one manufacturer data entry."]
        else []
      match manufacturer_data.head? with
      | none => (none, [SessionCall.getDeviceInfo i], logs)
      | some (manufacturer_id, data) =>
        (some (CentralEvent.ManufacturerDataAdvertisement
            (BDAddr.fromMac device.mac_address) manufacturer_id data),
         [SessionCall.getDeviceInfo i], logs)
  | _ => (none, [], [])

/-- The event translator's value: zero or one domain event per raw event. -/
def central_event (event : BluetoothEvent) (session : BluetoothSession) :
    Option CentralEvent := (central_eventT event session).1

/-- Session calls performed while translating a prefix of raw events, in
arrival order (one lookup at a time per subscription). -/
def translationTrace (s : BluetoothSession) : List BluetoothEvent → List SessionCall
  | [] => []
  | ev :: rest => (central_eventT ev s).2.1 ++ translationTrace s rest

/-- `Adapter::events`, instrumented: acquire the raw stream, then filter-map
it through `central_event`. -/
def Adapter.eventsT (a : Adapter) :
    Except Error (List CentralEvent) × List SessionCall :=
  match a.session.event_stream with
  | Except.error e =>
    (Except.error (Error.fromBluetooth e), [SessionCall.eventStream])
  | Except.ok evs =>
    (Except.ok (evs.filterMap (fun ev => central_event ev a.session)),
     SessionCall.eventStream :: translationTrace a.session evs)

/-- The domain-event sequence returned by `Adapter::events`. -/
def Adapter.events (a : Adapter) : Except Error (List CentralEvent) :=
  a.eventsT.1

/-- `Adapter::start_scan`, instrumented. -/
def Adapter.start_scanT (a : Adapter) : Except Error Unit × List SessionCall :=
  (liftSession a.session.start_discovery, [SessionCall.startDiscovery])

/-- `Adapter::start_scan`. -/
def Adapter.start_scan (a : Adapter) : Except Error Unit := a.start_scanT.1

/-- `Adapter::stop_scan`, instrumented. -/
def Adapter.stop_scanT (a : Adapter) : Except Error Unit × List SessionCall :=
  (liftSession a.session.stop_discovery, [SessionCall.stopDiscovery])

/-- `Adapter::stop_scan`. -/
def Adapter.stop_scan (a : Adapter) : Except Error Unit := a.stop_scanT.1

/-- `Adapter::peripherals`, instrumented: fetch the device list and wrap every
entry with the shared session handle. -/
def Adapter.peripheralsT (a : Adapter) :
    Except Error (List Peripheral) × List SessionCall :=
  match a.session.get_devices with
  | Except.error e =>
    (Except.error (Error.fromBluetooth e), [SessionCall.getDevices])
  | Except.ok devices =>
    (Except.ok (devices.map (fun device => Peripheral.new a.session device)),
     [SessionCall.getDevices])

/-- `Adapter::peripherals`. -/
def Adapter.peripherals (a : Adapter) : Except Error (List Peripheral) :=
  a.peripheralsT.1

/-- `Adapter::peripheral`, instrumented: fetch the device list, then
`find_map` the first device whose derived address equals the argument, else
`Error::DeviceNotFound`. -/
def Adapter.peripheralT (a : Adapter) (address : BDAddr) :
    Except Error Peripheral × List SessionCall :=
  match a.session.get_devices with
  | Except.error e =>
    (Except.error (Error.fromBluetooth e), [SessionCall.getDevices])
  | Except.ok devices =>
    match find_map (fun device =>
        if BDAddr.fromMac device.mac_address = address then
          some (Peripheral.new a.session device)
        else none) devices with
    | some p => (Except.ok p, [SessionCall.getDevices])
    | none => (Except.error Error.DeviceNotFound, [SessionCall.getDevices])

/-- `Adapter::peripheral`. -/
def Adapter.peripheral (a : Adapter) (address : BDAddr) :
    Except Error Peripheral := (a.peripheralT address).1

/-- Definition following the spec's words (§5): the domain stream is the
stateless, order-preserving, one-to-zero-or-one element pipeline that, for
each raw event in arrival order, contributes the translator's zero-or-one
outputs. -/
def specPipeline (s : BluetoothSession) : List BluetoothEvent → List CentralEvent
  | [] => []
  | ev :: rest => (central_event ev s).toList ++ specPipeline s rest

/-! ### Concrete sessions used by witnesses and counterexamples -/

/-- Hardware address `AA:BB:CC:DD:EE:01`. -/
def mac1 : MacAddress := ⟨[0xAA, 0xBB, 0xCC, 0xDD, 0xEE, 0x01]⟩

/-- Hardware address `AA:BB:CC:DD:EE:02`. -/
def mac2 : MacAddress := ⟨[0xAA, 0xBB, 0xCC, 0xDD, 0xEE, 0x02]⟩

/-- Hardware address `AA:BB:CC:DD:EE:03` (listed by no demo device). -/
def mac3 : MacAddress := ⟨[0xAA, 0xBB, 0xCC, 0xDD, 0xEE, 0x03]⟩

/-- Demo device 0. -/
def dev1 : DeviceInfo := ⟨0, mac1⟩

/-- Demo device 1. -/
def dev2 : DeviceInfo := ⟨1, mac2⟩

/-- A healthy session knowing devices 0 and 1. -/
def demoSession : BluetoothSession :=
  { devicesResult := Except.ok [dev1, dev2]
    deviceInfoResult := fun i =>
      if i = 0 then Except.ok dev1
      else if i = 1 then Except.ok dev2
      else Except.error ⟨"device not found"⟩
    startDiscoveryResult := Except.ok ()
    stopDiscoveryResult := Except.ok ()
    eventStreamResult := Except.ok [BluetoothEvent.Device 0 DeviceEvent.Discovered] }

/-- Adapter over the healthy demo session. -/
def demoAdapter : Adapter := ⟨demoSession, "hci0"⟩

/-- A session whose every operation fails with message "boom". -/
def errSession : BluetoothSession :=
  { devicesResult := Except.error ⟨"boom"⟩
    deviceInfoResult := fun _ => Except.error ⟨"boom"⟩
    startDiscoveryResult := Except.error ⟨"boom"⟩
    stopDiscoveryResult := Except.error ⟨"boom"⟩
    eventStreamResult := Except.error ⟨"boom"⟩ }

/-- Adapter over the failing session. -/
def errAdapter : Adapter := ⟨errSession, "hci0"⟩

/-! ### Helper lemmas -/

/-- `find_map` returns `none` when `f` rejects every element. -/
theorem find_map_eq_none {α β : Type} (f : α → Option β) (l : List α)
    (h : ∀ x ∈ l, f x = none) : find_map f l = none := by
  induction l with
  | nil => rfl
  | cons a t ih =>
    have ha : f a = none := h a (List.mem_cons_self a t)
    simp only [find_map, ha]
    exact ih fun x hx => h x (List.mem_cons_of_mem a hx)

/-- `find_map` returns the image of the first accepted element. -/
theorem find_map_first {α β : Type} (f : α → Option β) (pre : List α) (d : α)
    (post : List α) (b : β) (hpre : ∀ x ∈ pre, f x = none) (hd : f d = some b) :
    find_map f (pre ++ d :: post) = some b := by
  induction pre with
  | nil => simp only [List.nil_append, find_map, hd]
  | cons a t ih =>
    have ha : f a = none := hpre a (List.mem_cons_self a t)
    simp only [List.cons_append, find_map, ha]
    exact ih fun x hx => hpre x (List.mem_cons_of_mem a hx)

/-- Filter-mapping a raw prefix equals the spec's element pipeline. -/
theorem filterMap_eq_specPipeline (s : BluetoothSession)
    (evs : List BluetoothEvent) :
    evs.filterMap (fun ev => central_event ev s) = specPipeline s evs := by
  induction evs with
  | nil => rfl
  | cons ev rest ih =>
    simp only [List.filterMap_cons, specPipeline]
    cases h : central_event ev s <;> simp [h, ih]

/-! ### Claim theorems -/

/-- C1: `peripheral(a)` fetches the session's device list and returns a
`Peripheral` built from the first device, in scan order, whose derived
address equals `a`; if no device derives an address equal to `a`, it fails
with `DeviceNotFound`. -/
theorem peripheral_first_match (a : Adapter) (address : BDAddr)
    (devices : List DeviceInfo)
    (hdev : a.session.get_devices = Except.ok devices) :
    ((∀ d ∈ devices, BDAddr.fromMac d.mac_address ≠ address) →
      a.peripheral address = Except.error Error.DeviceNotFound) ∧
    (∀ pre d post, devices = pre ++ d :: post →
      (∀ d2 ∈ pre, BDAddr.fromMac d2.mac_address ≠ address) →
      BDAddr.fromMac d.mac_address = address →
      a.peripheral address = Except.ok (Peripheral.new a.session d)) := by
  constructor
  · intro hnone
    have hfm : find_map (fun device =>
        if BDAddr.fromMac device.mac_address = address then
          some (Peripheral.new a.session device)
        else none) devices = none := by
      apply find_map_eq_none
      intro x hx
      simp [hnone x hx]
    simp [Adapter.peripheral, Adapter.peripheralT, hdev, hfm]
  · intro pre d post hsplit hpre hd
    have hfm : find_map (fun device =>
        if BDAddr.fromMac device.mac_address = address then
          some (Peripheral.new a.session device)
        else none) devices = some (Peripheral.new a.session d) := by
      rw [hsplit]
      apply find_map_first
      · intro x hx
        simp [hpre x hx]
      · simp [hd]
    simp [Adapter.peripheral, Adapter.peripheralT, hdev, hfm]

/-- C1 witness: on the demo session's list `[dev1, dev2]`, querying the
derived address of `dev2` returns `dev2` wrapped as a peripheral, and
querying an unlisted address fails with `DeviceNotFound`. -/
theorem peripheral_first_match_witness :
    demoAdapter.peripheral (BDAddr.fromMac mac2)
      = Except.ok (Peripheral.new demoSession dev2) ∧
    demoAdapter.peripheral (BDAddr.fromMac mac3)
      = Except.error Error.DeviceNotFound := by
  constructor
  · exact (peripheral_first_match demoAdapter (BDAddr.fromMac mac2)
      [dev1, dev2] rfl).2 [dev1] dev2 [] rfl (by decide) rfl
  · exact (peripheral_first_match demoAdapter (BDAddr.fromMac mac3)
      [dev1, dev2] rfl).1 (by decide)

/-- C6: a device-discovered notification whose lookup succeeds yields exactly
one `DeviceDiscovered` event carrying the address derived from the looked-up
device's hardware address. -/
theorem discovered_spec (s : BluetoothSession) (i : DeviceId)
    (device : DeviceInfo) (hok : s.get_device_info i = Except.ok device) :
    central_event (BluetoothEvent.Device i DeviceEvent.Discovered) s
      = some (CentralEvent.DeviceDiscovered (BDAddr.fromMac device.mac_address)) := by
  simp [central_event, central_eventT, hok]

/-- C6 witness: device 0 of the demo session is discovered at `mac1`. -/
theorem discovered_spec_witness :
    central_event (BluetoothEvent.Device 0 DeviceEvent.Discovered) demoSession
      = some (CentralEvent.DeviceDiscovered (BDAddr.fromMac mac1)) :=
  discovered_spec demoSession 0 dev1 rfl

/-- C4: a connection-state notification whose lookup succeeds yields
`DeviceConnected` when the flag is true and `DeviceDisconnected` when it is
false, at the looked-up device's address; and (for every session) no other
event variant is ever produced from a connection-state notification. -/
theorem connected_spec (s : BluetoothSession) (i : DeviceId)
    (device : DeviceInfo) (hok : s.get_device_info i = Except.ok device) :
    central_event (BluetoothEvent.Device i (DeviceEvent.Connected true)) s
      = some (CentralEvent.DeviceConnected (BDAddr.fromMac device.mac_address)) ∧
    central_event (BluetoothEvent.Device i (DeviceEvent.Connected false)) s
      = some (CentralEvent.DeviceDisconnected (BDAddr.fromMac device.mac_address)) ∧
    (∀ (s2 : BluetoothSession) (j : DeviceId) (c : Bool) (ev : CentralEvent),
      central_event (BluetoothEvent.Device j (DeviceEvent.Connected c)) s2
        = some ev →
      (∃ addr, ev = CentralEvent.DeviceConnected addr) ∨
      (∃ addr, ev = CentralEvent.DeviceDisconnected addr)) := by
  refine ⟨by simp [central_event, central_eventT, hok],
    by simp [central_event, central_eventT, hok], ?_⟩
  intro s2 j c ev hev
  simp only [central_event, central_eventT] at hev
  cases hinfo : s2.get_device_info j with
  | error e => rw [hinfo] at hev; simp at hev
  | ok d =>
    rw [hinfo] at hev
    cases c with
    | true =>
      simp at hev
      exact Or.inl ⟨BDAddr.fromMac d.mac_address, hev.symm⟩
    | false =>
      simp at hev
      exact Or.inr ⟨BDAddr.fromMac d.mac_address, hev.symm⟩

/-- C4 witness: device 1 of the demo session connects and disconnects at
`mac2`. -/
theorem connected_spec_witness :
    central_event (BluetoothEvent.Device 1 (DeviceEvent.Connected true))
      demoSession
      = some (CentralEvent.DeviceConnected (BDAddr.fromMac mac2)) ∧
    central_event (BluetoothEvent.Device 1 (DeviceEvent.Connected false))
      demoSession
      = some (CentralEvent.DeviceDisconnected (BDAddr.fromMac mac2)) :=
  ⟨(connected_spec demoSession 1 dev2 rfl).1,
   (connected_spec demoSession 1 dev2 rfl).2.1⟩

/-- C3: when the device-info lookup fails, every lookup-requiring notification
(discovered, connection-state, signal-strength, manufacturer-data) yields no
domain event and no error (the translator's type admits none), and translation
of later notifications is unaffected: the rest of the prefix filter-maps
exactly as it would alone. -/
theorem lookup_failure_drops (s : BluetoothSession) (i : DeviceId)
    (e : BluetoothError) (hfail : s.get_device_info i = Except.error e) :
    central_event (BluetoothEvent.Device i DeviceEvent.Discovered) s = none ∧
    (∀ c : Bool,
      central_event (BluetoothEvent.Device i (DeviceEvent.Connected c)) s
        = none) ∧
    (∀ rssi : Int,
      central_event (BluetoothEvent.Device i (DeviceEvent.RSSI rssi)) s
        = none) ∧
    (∀ md : List (Nat × List Nat),
      central_event (BluetoothEvent.Device i (DeviceEvent.ManufacturerData md)) s
        = none) ∧
    (∀ (ev : BluetoothEvent) (rest : List BluetoothEvent),
      central_event ev s = none →
      (ev :: rest).filterMap (fun x => central_event x s)
        = rest.filterMap (fun x => central_event x s)) := by
  refine ⟨by simp [central_event, central_eventT, hfail],
    fun c => by cases c <;> simp [central_event, central_eventT, hfail],
    fun rssi => by simp [central_event, central_eventT, hfail],
    fun md => by simp [central_event, central_eventT, hfail],
    fun ev rest hnone => by simp [List.filterMap_cons, hnone]⟩

/-- C3 witness: the demo session knows no device 5, so a discovered
notification for id 5 is dropped while a later one for id 0 still
translates. -/
theorem lookup_failure_drops_witness :
    central_event (BluetoothEvent.Device 5 DeviceEvent.Discovered) demoSession
      = none ∧
    [BluetoothEvent.Device 5 DeviceEvent.Discovered,
     BluetoothEvent.Device 0 DeviceEvent.Discovered].filterMap
        (fun x => central_event x demoSession)
      = [BluetoothEvent.Device 0 DeviceEvent.Discovered].filterMap
        (fun x => central_event x demoSession) := by
  have h := lookup_failure_drops demoSession 5 ⟨"device not found"⟩ rfl
  exact ⟨h.1, h.2.2.2.2 _ _ h.1⟩

/-- C2: for a manufacturer-data notification whose lookup succeeds — an empty
map yields no event; a non-empty map yields exactly one
`ManufacturerDataAdvertisement` built from the first entry (extra entries
discarded); more than one entry logs exactly the warning line, and at most
one entry logs nothing. -/
theorem manufacturer_data_spec (s : BluetoothSession) (i : DeviceId)
    (device : DeviceInfo) (md : List (Nat × List Nat))
    (hok : s.get_device_info i = Except.ok device) :
    (md = [] →
      central_event (BluetoothEvent.Device i (DeviceEvent.ManufacturerData md)) s
        = none) ∧
    (∀ mid data rest, md = (mid, data) :: rest →
      central_event (BluetoothEvent.Device i (DeviceEvent.ManufacturerData md)) s
        = some (CentralEvent.ManufacturerDataAdvertisement
            (BDAddr.fromMac device.mac_address) mid data)) ∧
    (md.length > 1 →
      (central_eventT (BluetoothEvent.Device i (DeviceEvent.ManufacturerData md)) s).2.2
        = ["Got more than one manufacturer data entry."]) ∧
    (md.length ≤ 1 →
      (central_eventT (BluetoothEvent.Device i (DeviceEvent.ManufacturerData md)) s).2.2
        = []) := by
  refine ⟨?_, ?_, ?_, ?_⟩
  · intro hmd
    subst hmd
    simp [central_event, central_eventT, hok]
  · intro mid data rest hmd
    subst hmd
    simp [central_event, central_eventT, hok]
  · intro hlen
    cases md with
    | nil => simp at hlen
    | cons p rest =>
      obtain ⟨mid, data⟩ := p
      cases rest with
      | nil => simp at hlen
      | cons q rest2 =>
        have hgt : ((mid, data) :: q :: rest2).length > 1 := by
          simp only [List.length_cons]
          omega
        simp [central_eventT, hok, hgt]
  · intro hlen
    cases md with
    | nil => simp [central_eventT, hok]
    | cons p rest =>
      obtain ⟨mid, data⟩ := p
      cases rest with
      | nil =>
        have hnot : ¬ ([(mid, data)] : List (Nat × List Nat)).length > 1 := by
          simp
        simp [central_eventT, hok, hnot]
      | cons q rest2 =>
        exfalso
        simp only [List.length_cons] at hlen
        omega

/-- C2 witness: a two-entry map for device 0 produces one advertisement from
the first entry and logs the warning. -/
theorem manufacturer_data_spec_witness :
    central_event (BluetoothEvent.Device 0
        (DeviceEvent.ManufacturerData [(76, [1, 2]), (117, [3])])) demoSession
      = some (CentralEvent.ManufacturerDataAdvertisement
          (BDAddr.fromMac mac1) 76 [1, 2]) ∧
    (central_eventT (BluetoothEvent.Device 0
        (DeviceEvent.ManufacturerData [(76, [1, 2]), (117, [3])])) demoSession).2.2
      = ["Got more than one manufacturer data entry."] := by
  have h := manufacturer_data_spec demoSession 0 dev1
    [(76, [1, 2]), (117, [3])] rfl
  exact ⟨h.2.1 76 [1, 2] [(117, [3])] rfl, h.2.2.1 (by decide)⟩

/-- C5 counterexample: on the demo session, an empty-map manufacturer-data
notification for device 0 is indeed dropped (no event), yet the session call
trace is `[getDeviceInfo 0]`, not empty — the lookup is performed before the
map is inspected, refuting the claim that no lookup happens. -/
theorem manufacturer_empty_lookup_cex :
    (central_eventT (BluetoothEvent.Device 0
        (DeviceEvent.ManufacturerData [])) demoSession).1 = none ∧
    (central_eventT (BluetoothEvent.Device 0
        (DeviceEvent.ManufacturerData [])) demoSession).2.1
      ≠ [] ∧
    (central_eventT (BluetoothEvent.Device 0
        (DeviceEvent.ManufacturerData [])) demoSession).2.1
      = [SessionCall.getDeviceInfo 0] := by
  refine ⟨rfl, ?_, rfl⟩
  intro h
  simp [central_eventT, BluetoothSession.get_device_info, demoSession] at h

/-- C5 amended: an empty-map manufacturer-data notification yields no event,
but the translator still performs exactly one device-info lookup for the
notification's device id before dropping it. -/
theorem manufacturer_empty_spec (s : BluetoothSession) (i : DeviceId) :
    (central_eventT (BluetoothEvent.Device i
        (DeviceEvent.ManufacturerData [])) s).1 = none ∧
    (central_eventT (BluetoothEvent.Device i
        (DeviceEvent.ManufacturerData [])) s).2.1
      = [SessionCall.getDeviceInfo i] := by
  cases h : s.get_device_info i <;> simp [central_eventT, h]

/-- C7: when the raw subscription yields the prefix `evs`, `events()` returns
exactly the spec's stateless, order-preserving, one-to-zero-or-one pipeline of
`evs` through the translator, and every raw event contributes at most one
domain event. -/
theorem events_refines_pipeline (a : Adapter) (evs : List BluetoothEvent)
    (hraw : a.session.event_stream = Except.ok evs) :
    a.events = Except.ok (specPipeline a.session evs) ∧
    (∀ ev : BluetoothEvent,
      ((central_event ev a.session).toList).length ≤ 1) := by
  constructor
  · simp only [Adapter.events, Adapter.eventsT, hraw]
    exact congrArg Except.ok (filterMap_eq_specPipeline a.session evs)
  · intro ev
    cases central_event ev a.session <;> simp

/-- C7 witness: the demo adapter's one-element raw prefix translates to the
pipeline's output, a single discovery event. -/
theorem events_refines_pipeline_witness :
    demoAdapter.events
      = Except.ok (specPipeline demoSession
          [BluetoothEvent.Device 0 DeviceEvent.Discovered]) ∧
    specPipeline demoSession [BluetoothEvent.Device 0 DeviceEvent.Discovered]
      = [CentralEvent.DeviceDiscovered (BDAddr.fromMac mac1)] := by
  refine ⟨(events_refines_pipeline demoAdapter
    [BluetoothEvent.Device 0 DeviceEvent.Discovered] rfl).1, ?_⟩
  simp [specPipeline, central_event, central_eventT,
    BluetoothSession.get_device_info, demoSession, dev1]

/-- C8: when the device-list call succeeds, `peripherals()` wraps every entry
of the session's list — no entry filtered out — so the returned list has the
session list's length. -/
theorem peripherals_spec (a : Adapter) (devices : List DeviceInfo)
    (hdev : a.session.get_devices = Except.ok devices) :
    a.peripherals
      = Except.ok (devices.map (fun device => Peripheral.new a.session device)) ∧
    (devices.map (fun device => Peripheral.new a.session device)).length
      = devices.length := by
  constructor
  · simp [Adapter.peripherals, Adapter.peripheralsT, hdev]
  · simp

/-- C8 witness: on the demo session's two-device list, `peripherals()` returns
both devices wrapped, a list of length 2. -/
theorem peripherals_spec_witness :
    demoAdapter.peripherals
      = Except.ok [Peripheral.new demoSession dev1, Peripheral.new demoSession dev2] ∧
    ([dev1, dev2].map (fun device => Peripheral.new demoSession device)).length
      = 2 := by
  have h := peripherals_spec demoAdapter [dev1, dev2] rfl
  exact ⟨h.1, h.2⟩

/-- C9: every transport-layer error surfaced through `start_scan`,
`stop_scan`, `peripherals`, `peripheral`, or establishing the event
subscription, is mapped to `Error.Other` carrying exactly the error's
rendered message — the only data the domain error retains. -/
theorem error_mapping (a : Adapter) (e : BluetoothError) :
    (a.session.start_discovery = Except.error e →
      a.start_scan = Except.error (Error.Other e.toString)) ∧
    (a.session.stop_discovery = Except.error e →
      a.stop_scan = Except.error (Error.Other e.toString)) ∧
    (a.session.get_devices = Except.error e →
      a.peripherals = Except.error (Error.Other e.toString)) ∧
    (∀ address : BDAddr, a.session.get_devices = Except.error e →
      a.peripheral address = Except.error (Error.Other e.toString)) ∧
    (a.session.event_stream = Except.error e →
      a.events = Except.error (Error.Other e.toString)) := by
  refine ⟨?_, ?_, ?_, ?_, ?_⟩
  · intro h
    simp [Adapter.start_scan, Adapter.start_scanT, h, liftSession,
      Error.fromBluetooth]
  · intro h
    simp [Adapter.stop_scan, Adapter.stop_scanT, h, liftSession,
      Error.fromBluetooth]
  · intro h
    simp [Adapter.peripherals, Adapter.peripheralsT, h, Error.fromBluetooth]
  · intro address h
    simp [Adapter.peripheral, Adapter.peripheralT, h, Error.fromBluetooth]
  · intro h
    simp [Adapter.events, Adapter.eventsT, h, Error.fromBluetooth]

/-- C9 witness: on the all-failing session whose errors render as "boom",
every operation fails with `Error.Other "boom"`. -/
theorem error_mapping_witness :
    errAdapter.start_scan = Except.error (Error.Other "boom") ∧
    errAdapter.stop_scan = Except.error (Error.Other "boom") ∧
    errAdapter.peripherals = Except.error (Error.Other "boom") ∧
    errAdapter.peripheral (BDAddr.fromMac mac1)
      = Except.error (Error.Other "boom") ∧
    errAdapter.events = Except.error (Error.Other "boom") := by
  have h := error_mapping errAdapter ⟨"boom"⟩
  exact ⟨h.1 rfl, h.2.1 rfl, h.2.2.1 rfl, h.2.2.2.1 (BDAddr.fromMac mac1) rfl,
    h.2.2.2.2 rfl⟩

/-- C10: no Central operation depends on the stored adapter identifier: two
adapters over the same session but different identifiers produce identical
results and identical session-call traces on every operation. -/
theorem adapter_id_irrelevant (s : BluetoothSession) (id1 id2 : AdapterId) :
    (Adapter.mk s id1).eventsT = (Adapter.mk s id2).eventsT ∧
    (Adapter.mk s id1).start_scanT = (Adapter.mk s id2).start_scanT ∧
    (Adapter.mk s id1).stop_scanT = (Adapter.mk s id2).stop_scanT ∧
    (Adapter.mk s id1).peripheralsT = (Adapter.mk s id2).peripheralsT ∧
    (∀ address : BDAddr,
      (Adapter.mk s id1).peripheralT address
        = (Adapter.mk s id2).peripheralT address) :=
  ⟨rfl, rfl, rfl, rfl, fun _ => rfl⟩
